import Mathlib

/-!
Shallow embedding of the authenticated HTTP client layer of the moni
repository (crates/vertex_ai): the token-provider and header logic of
crates/vertex_ai/src/client/mod.rs, the typed data-store endpoints of
crates/vertex_ai/src/data_store/data_store.rs, the discovery-engine search
and answer endpoints of crates/vertex_ai/src/discovery_engine/client.rs,
and the Operation JSON schema with its serde round-trip behaviour.

Modelling conventions:
* JSON values are the inductive Json below; serde_json maps are key-unique
  association lists (Rust HashMap equality is content based, so a list with
  distinct keys is a canonical representative).
* Fallible Rust returns become Except / Option; a Rust panic (expect or
  unwrap) becomes the dedicated Outcome.panicked constructor.
* External effects are explicit parameters bundled in Env: the result of
  gcp_auth provider initialisation, the reqwest URL parser, and the network
  transport. Theorems quantify over Env, so independence from the transport
  means the code decides before any network call.
-/

namespace Moni

/-- JSON value tree, the model of serde_json::Value. Numbers are integers,
which is all the claims here need; objects are association lists in emission
order. -/
inductive Json where
  | null : Json
  | bool (b : Bool) : Json
  | num (n : Int) : Json
  | str (s : String) : Json
  | arr (elems : List Json) : Json
  | obj (fields : List (String × Json)) : Json

/-- Lookup of a field in a JSON object body, first match wins (serde_json
maps are key unique, so at most one match exists). -/
def lookupField (l : List (String × Json)) (k : String) : Option Json :=
  match l with
  | [] => none
  | (k', v) :: rest => if k' = k then some v else lookupField rest k

/-- Removal of every binding of a key from a JSON object body. -/
def removeField (l : List (String × Json)) (k : String) : List (String × Json) :=
  l.filter (fun p => p.1 ≠ k)

/-- Model of the Metadata struct of data_store.rs: a renamed field at_type
(serialized as the literal key given by serde rename) plus a flattened
open-ended map of the remaining keys. -/
structure Metadata where
  at_type : String
  additional : List (String × Json)

/-- Model of the Operation struct of data_store.rs lines 1019 to 1027:
name, optional metadata (skipped when none), done flag, optional response
map from strings to strings (skipped when none). -/
structure Operation where
  name : String
  metadata : Option Metadata
  done : Bool
  response : Option (List (String × String))

/-- Serde serialization of Metadata: the at_type field under its rename key,
then the flattened additional entries at the same level. -/
def encodeMetadata (m : Metadata) : Json :=
  .obj (("@type", .str m.at_type) :: m.additional)

/-- Serde serialization of a HashMap from String to String. -/
def encodeStringMap (l : List (String × String)) : Json :=
  .obj (l.map (fun p => (p.1, .str p.2)))

/-- Serde serialization of Operation: fields in declaration order, the two
Option fields omitted when none per their skip_serializing_if attribute. -/
def encodeOperation (op : Operation) : Json :=
  .obj ([("name", .str op.name)]
    ++ (match op.metadata with
        | none => []
        | some m => [("metadata", encodeMetadata m)])
    ++ [("done", .bool op.done)]
    ++ (match op.response with
        | none => []
        | some r => [("response", encodeStringMap r)]))

/-- Serde deserialization of a String value. -/
def decodeString : Json → Option String
  | .str s => some s
  | _ => none

/-- Recursive worker of decodeStringMap: every value must be a string. -/
def decodeStringPairs : List (String × Json) → Option (List (String × String))
  | [] => some []
  | (k, .str s) :: rest => (decodeStringPairs rest).map (fun xs => (k, s) :: xs)
  | _ => none

/-- Serde deserialization of a HashMap from String to String. -/
def decodeStringMap : Json → Option (List (String × String))
  | .obj fields => decodeStringPairs fields
  | _ => none

/-- Serde deserialization of Metadata: the rename key feeds at_type, and the
flatten attribute collects every remaining key into additional. -/
def decodeMetadata : Json → Option Metadata
  | .obj fields =>
    match lookupField fields "@type" with
    | some (.str t) => some { at_type := t, additional := removeField fields "@type" }
    | _ => none
  | _ => none

/-- Test for the JSON null value. -/
def Json.isNull : Json → Bool
  | .null => true
  | _ => false

/-- Serde handling of an Option field: a missing key or an explicit null
yields none, anything else must decode. -/
def decodeOptionalField {α : Type} (dec : Json → Option α)
    (fields : List (String × Json)) (k : String) : Option (Option α) :=
  match lookupField fields k with
  | none => some none
  | some v => if v.isNull then some none else (dec v).map some

/-- Serde deserialization of Operation: name must be a string, done a bool,
metadata and response optional; unknown keys are ignored. -/
def decodeOperation (j : Json) : Option Operation :=
  match j with
  | .obj fields =>
    match lookupField fields "name" with
    | some (.str nm) =>
      match lookupField fields "done" with
      | some (.bool d) =>
        match decodeOptionalField decodeMetadata fields "metadata" with
        | some md =>
          match decodeOptionalField decodeStringMap fields "response" with
          | some rs => some { name := nm, metadata := md, done := d, response := rs }
          | none => none
        | none => none
      | _ => none
    | _ => none
  | _ => none

/-- Well-formedness of a Metadata value as a Rust HashMap image conforming to
the remote schema: keys are distinct and the flattened map does not itself
contain the reserved type-marker key. -/
def Metadata.wf (m : Metadata) : Prop :=
  (m.additional.map Prod.fst).Nodup ∧ "@type" ∉ m.additional.map Prod.fst

instance (m : Metadata) : Decidable m.wf := by
  unfold Metadata.wf; infer_instance

/-- Well-formedness of an Operation value: its optional maps are genuine
HashMap images (distinct keys) and the metadata is schema conformant. -/
def Operation.wf (op : Operation) : Prop :=
  (∀ m ∈ op.metadata, m.wf) ∧ (∀ r ∈ op.response, (r.map Prod.fst).Nodup)

instance (op : Operation) : Decidable op.wf := by
  unfold Operation.wf; infer_instance

/-- OAuth scope string. -/
abbrev Scope := String

/-- Fixed scope constant BASE_SCOPE of data_store.rs and discovery_engine. -/
def BASE_SCOPE : Scope := "https://www.googleapis.com/auth/cloud-platform"

/-- Opaque error of the gcp_auth crate, carried inside ProviderError. -/
structure GcpAuthError where
  msg : String
deriving DecidableEq, Repr

/-- Model of a gcp_auth TokenProvider: token takes the scope list and either
yields the bearer token string or fails. -/
structure TokenProvider where
  token : List Scope → Except GcpAuthError String

/-- Model of a reqwest::Error by its kind: a builder error (URL rejected
inside the request builder), a transport failure at send time, a status
error produced by error_for_status (which records url and status code but
discards the response body), or a body decode failure. -/
inductive ReqwestError where
  | builder (cause : String)
  | transport (cause : String)
  | status (url : String) (code : Nat)
  | decode (cause : String)
deriving DecidableEq, Repr

/-- Model of a parsed reqwest::Url: the base (scheme, host and path) and the
query pairs appended to it. -/
structure Url where
  base : String
  query : List (String × String)
deriving DecidableEq, Repr

/-- HTTP method of an outbound request. -/
inductive Method where
  | post
  | get
  | delete
deriving DecidableEq, Repr

/-- Outbound HTTP request as handed to the transport: method, parsed URL,
headers, and the JSON body when there is one. -/
structure HttpRequest where
  method : Method
  url : Url
  headers : List (String × String)
  body : Option Json

/-- Raw HTTP response: status code, the request URL it answers (reqwest
errors quote it), and the JSON body. -/
structure HttpResponse where
  status : Nat
  url : String
  body : Json

/-- Error enum of crates/vertex_ai/src/client/error.rs. -/
inductive ClientLayerError where
  | ProviderError (e : GcpAuthError)
  | ClientError (e : ReqwestError)
  | UrlParseError (s : String)
  | HttpStatus (s : String)
  | ResponseJsonParsing (e : ReqwestError)
deriving DecidableEq, Repr

/-- Result of a Rust call that can also panic: ok value, error value, or a
panic with its message (expect and unwrap abort instead of returning). -/
inductive Outcome (ε : Type) (α : Type) where
  | ok (a : α)
  | err (e : ε)
  | panicked (msg : String)

/-- Environment of external effects a client call consumes: the result of
gcp_auth provider initialisation, the reqwest URL parser, and the network
transport performing the HTTP exchange. -/
structure Env where
  providerInit : Except GcpAuthError TokenProvider
  parse : String → Except String Url
  send : HttpRequest → Except ReqwestError HttpResponse

/-- Model of reqwest::Url::parse_with_params: parse the base URL and append
the query pairs to whatever query it already carries. -/
def parse_with_params (parse : String → Except String Url) (url : String)
    (params : List (String × String)) : Except String Url :=
  match parse url with
  | .error e => .error e
  | .ok u => .ok { u with query := u.query ++ params }

/-- Model of token_provider of client/mod.rs lines 13 to 21: the OnceCell
holds the result of gcp_auth::provider(), and an initialisation error aborts
via expect with this exact message instead of returning an error. -/
def token_provider (env : Env) : Outcome ClientLayerError TokenProvider :=
  match env.providerInit with
  | .error _ => .panicked "unable to initialize token provider"
  | .ok p => .ok p

/-- Model of Client::auth_headers of client/mod.rs lines 34 to 46: get the
provider, request a token for the scopes, map a token failure to
ProviderError, and otherwise build the bearer authorization header. -/
def auth_headers (env : Env) (scopes : List Scope) :
    Outcome ClientLayerError (List (String × String)) :=
  match token_provider env with
  | .panicked m => .panicked m
  | .err e => .err e
  | .ok provider =>
    match provider.token scopes with
    | .error e => .err (.ProviderError e)
    | .ok tok => .ok [("authorization", "Bearer " ++ tok)]

/-- Model of Client::api_post of client/mod.rs lines 48 to 68: headers
first, then the URL string goes straight into the reqwest builder, which
defers a URL parse failure to send() as a builder error mapped to
ClientError (api_post never produces UrlParseError); a transport failure is
also mapped to ClientError, and the raw response is returned without any
status check. -/
def api_post (env : Env) (scopes : List Scope) (url : String) (body : Json) :
    Outcome ClientLayerError HttpResponse :=
  match auth_headers env scopes with
  | .panicked m => .panicked m
  | .err e => .err e
  | .ok headers =>
    match env.parse url with
    | .error e => .err (.ClientError (.builder e))
    | .ok u =>
      match env.send { method := .post, url := u, headers := headers, body := some body } with
      | .error e => .err (.ClientError e)
      | .ok r => .ok r

/-- URL resolution step shared by api_get_with_params and api_delete: parse
the bare URL when there are no params, otherwise parse_with_params. -/
def resolve_url (parse : String → Except String Url) (url : String)
    (params : Option (List (String × String))) : Except String Url :=
  match params with
  | none => parse url
  | some ps => parse_with_params parse url ps

/-- Model of Client::api_get_with_params of client/mod.rs lines 70 to 91:
headers, then explicit URL parsing whose failure maps to UrlParseError with
the offending reason before the transport is touched, then the GET exchange;
the raw response is returned without any status check. -/
def api_get_with_params (env : Env) (scopes : List Scope) (url : String)
    (params : Option (List (String × String))) :
    Outcome ClientLayerError HttpResponse :=
  match auth_headers env scopes with
  | .panicked m => .panicked m
  | .err e => .err e
  | .ok headers =>
    match resolve_url env.parse url params with
    | .error e => .err (.UrlParseError e)
    | .ok u =>
      match env.send { method := .get, url := u, headers := headers, body := none } with
      | .error e => .err (.ClientError e)
      | .ok r => .ok r

/-- Model of Client::api_get of client/mod.rs lines 93 to 95. -/
def api_get (env : Env) (scopes : List Scope) (url : String) :
    Outcome ClientLayerError HttpResponse :=
  api_get_with_params env scopes url none

/-- Model of Client::api_delete of client/mod.rs lines 97 to 118: same shape
as api_get_with_params with the DELETE method. -/
def api_delete (env : Env) (scopes : List Scope) (url : String)
    (params : Option (List (String × String))) :
    Outcome ClientLayerError HttpResponse :=
  match auth_headers env scopes with
  | .panicked m => .panicked m
  | .err e => .err e
  | .ok headers =>
    match resolve_url env.parse url params with
    | .error e => .err (.UrlParseError e)
    | .ok u =>
      match env.send { method := .delete, url := u, headers := headers, body := none } with
      | .error e => .err (.ClientError e)
      | .ok r => .ok r

namespace DataStore

/-- Error enum of crates/vertex_ai/src/data_store/error.rs. The HttpStatus
variant carries a String; the call sites hand it the stringified reqwest
status error (as spelled out in lib.rs), which quotes status and url but not
the response body. -/
inductive Error where
  | ClientError (e : ClientLayerError)
  | HttpStatus (s : String)
  | DataStoreError
  | ResponseJsonParsing (e : ReqwestError)
deriving DecidableEq, Repr

end DataStore

/-- Model of reqwest Response::error_for_status: a 4xx or 5xx status turns
into a status-kind reqwest::Error recording the url and the code; the
response body is consumed and lost. Any other status passes through. -/
def error_for_status (r : HttpResponse) : Except ReqwestError HttpResponse :=
  if 400 ≤ r.status ∧ r.status ≤ 599 then .error (.status r.url r.status)
  else .ok r

/-- Display rendering of a reqwest::Error, the value to_string produces.
Faithful in what matters here: a status error mentions only the code and the
url, never the response body. -/
def reqwestErrorString : ReqwestError → String
  | .builder c => "builder error: " ++ c
  | .transport c => "error sending request: " ++ c
  | .status u c => "HTTP status error (" ++ toString c ++ ") for url (" ++ u ++ ")"
  | .decode c => "error decoding response body: " ++ c

/-- Response pipeline every data-store endpoint runs on the client result:
propagate client errors wrapped in DataStore.Error.ClientError, require HTTP
success via error_for_status stringified into HttpStatus, and hand back the
surviving response. -/
def dataStorePipeline (call : Outcome ClientLayerError HttpResponse) :
    Outcome DataStore.Error HttpResponse :=
  match call with
  | .panicked m => .panicked m
  | .err e => .err (.ClientError e)
  | .ok resp =>
    match error_for_status resp with
    | .error e => .err (.HttpStatus (reqwestErrorString e))
    | .ok resp2 => .ok resp2

/-- DeleteDataStoreRequest of data_store.rs. -/
structure DeleteDataStoreRequest where
  collections : String
  project_id : String
  data_store_id : String

/-- URL the delete endpoint formats, data_store.rs lines 136 to 140, with
the location let-bound to the literal global. -/
def delete_data_store_url (r : DeleteDataStoreRequest) : String :=
  "https://discoveryengine.googleapis.com/v1/projects/" ++ r.project_id
    ++ "/locations/" ++ "global" ++ "/collections/" ++ r.collections
    ++ "/dataStores/" ++ r.data_store_id

/-- Model of DataStoreClient::delete_data_store of data_store.rs lines 132
to 150: format the URL, api_delete with the base scope and no params,
require success status (stringified into HttpStatus), then decode the body
as an Operation, a mismatch becoming ResponseJsonParsing. -/
def delete_data_store (env : Env) (request : DeleteDataStoreRequest) :
    Outcome DataStore.Error Operation :=
  match dataStorePipeline
      (api_delete env [BASE_SCOPE] (delete_data_store_url request) none) with
  | .panicked m => .panicked m
  | .err e => .err e
  | .ok resp =>
    match decodeOperation resp.body with
    | none => .err (.ResponseJsonParsing (.decode "expected Operation"))
    | some op => .ok op

/-- CreateDataStoreRequest of data_store.rs; the data_store payload is
carried as its serialized JSON value, which is all api_post consumes of
it. -/
structure CreateDataStoreRequest where
  data_store : Json
  project_id : String
  collections : String
  data_store_id : String
  create_advance_site_search : Option Bool

/-- Base URL the create endpoint formats, data_store.rs lines 47 to 52, with
the location let-bound to the literal global. -/
def create_data_store_base_url (r : CreateDataStoreRequest) : String :=
  "https://discoveryengine.googleapis.com/v1beta/projects/" ++ r.project_id
    ++ "/locations/" ++ "global" ++ "/collections/" ++ r.collections
    ++ "/dataStores"

/-- Rendering of a Rust bool by to_string. -/
def boolString (b : Bool) : String := if b then "true" else "false"

/-- Query parameters the create endpoint passes to parse_with_params,
data_store.rs line 53: the data-store id and the advanced-site-search flag
defaulted to false by unwrap_or. -/
def create_data_store_params (r : CreateDataStoreRequest) : List (String × String) :=
  [("dataStoreId", r.data_store_id),
   ("createAdvancedSiteSearch", boolString (r.create_advance_site_search.getD false))]

/-- Serialized form of a parsed Url, reqwest Url::as_str: the base followed
by the query string. The query rendering stands for reqwest's URL-encoded
serialization; theorems that re-parse an as_str value assume the parser
inverts it, which is the reqwest parse/serialize round-trip invariant. -/
def Url.as_str (u : Url) : String :=
  match u.query with
  | [] => u.base
  | ps => u.base ++ "?" ++ String.intercalate "&" (ps.map (fun p => p.1 ++ "=" ++ p.2))

/-- Model of DataStoreClient::create_data_store of data_store.rs lines 40 to
67: build the URL with parse_with_params, unwrap it (a parse failure would
panic), POST the data-store payload through api_post with the base scope,
require success status, and decode the body as an Operation. -/
def create_data_store (env : Env) (request : CreateDataStoreRequest) :
    Outcome DataStore.Error Operation :=
  match parse_with_params env.parse (create_data_store_base_url request)
      (create_data_store_params request) with
  | .error e => .panicked ("called unwrap on an Err value: " ++ e)
  | .ok u =>
    match dataStorePipeline
        (api_post env [BASE_SCOPE] (Url.as_str u) request.data_store) with
    | .panicked m => .panicked m
    | .err e => .err e
    | .ok resp =>
      match decodeOperation resp.body with
      | none => .err (.ResponseJsonParsing (.decode "expected Operation"))
      | some op => .ok op

/-- SearchChunksRequest of data_store.rs lines 913 to 932; the nested
content_search_spec is carried as its serialized JSON value. -/
structure SearchChunksRequest where
  project_id : String
  collections : String
  data_store_id : String
  serving_config : String
  query : String
  page_size : Option Int
  page_token : Option String
  offset : Option Int
  filter : Option String
  order_by : Option String
  content_search_spec : Json

/-- URL the search_chunks endpoint formats, data_store.rs lines 238 to 241:
only project_id, the location literal global, collections and data_store_id
appear in it. -/
def search_chunks_url (r : SearchChunksRequest) : String :=
  "https://discoveryengine.googleapis.com/v1alpha/projects/" ++ r.project_id
    ++ "/locations/" ++ "global" ++ "/collections/" ++ r.collections
    ++ "/dataStores/" ++ r.data_store_id
    ++ "/servingConfigs/default_search:search"

/-- Model of DataStoreClient::search_chunks of data_store.rs lines 232 to
252 up to the raw HTTP response: api_get_with_params with the base scope,
the formatted URL and no query parameters, then the success-status check.
The trailing deserialization into SearchChunksResponse is a pure function of
the returned body and plays no part in the outbound request. -/
def search_chunks_send (env : Env) (request : SearchChunksRequest) :
    Outcome DataStore.Error HttpResponse :=
  dataStorePipeline
    (api_get_with_params env [BASE_SCOPE] (search_chunks_url request) none)

namespace DiscoveryEngine

/-- SearchRequest of discovery_engine/client.rs lines 580 to 583; the nested
discovery_engine_search_request is carried as its serialized JSON value. -/
structure SearchRequest where
  project_id : String
  discovery_engine_search_request : Json

/-- AnswerRequest of discovery_engine/client.rs lines 393 to 396. -/
structure AnswerRequest where
  project_id : String
  discovery_engine_answer_request : Json

/-- Engine id hardcoded into search and answer, discovery_engine/client.rs
lines 255 and 277 (let app_id). -/
def app_id : String := "moni-demo-final_1722720080773"

/-- The server_config path both search and answer format, lines 257 and 278:
projects/(project_id)/locations/global/collections/default_collection/
engines/(app_id)/servingConfigs/default_serving_config. -/
def server_config (project_id : String) : String :=
  "projects/" ++ project_id ++ "/locations/" ++ "global"
    ++ "/collections/default_collection/engines/" ++ app_id
    ++ "/servingConfigs/default_serving_config"

/-- URL of DataStoreClient::search, discovery_engine/client.rs lines 258 to
262. -/
def search_url (r : SearchRequest) : String :=
  "https://discoveryengine.googleapis.com/v1beta/" ++ server_config r.project_id
    ++ ":search"

/-- URL of DataStoreClient::answer, discovery_engine/client.rs lines 279 to
282. -/
def answer_url (r : AnswerRequest) : String :=
  "https://discoveryengine.googleapis.com/v1beta/" ++ server_config r.project_id
    ++ ":answer"

end DiscoveryEngine

/-- Terminal result of polling a long-running Operation: resolved with the
final snapshot, timed out after exhausting the retry budget (an ordinary
constructor of the return type, not an exception), or aborted because a
fetch itself failed. -/
inductive PollOutcome where
  | success (op : Operation)
  | timedOut
  | fetchFailed (e : DataStore.Error)

/-- Modelled from the spec: the repository's OperationPoller (the
poll_operation referenced by PollOperationRequest and by the commented-out
callers in data_store.rs and discovery_engine/client.rs) is absent from the
sources, so its loop follows section 4.3 of the spec verbatim. The fetch
argument yields the snapshot a GET of the operation returns on the k-th
fetch (0-based); fetched counts fetches performed so far and budget is the
remaining retry allowance. Each iteration fetches once; a done snapshot
returns success immediately, a fetch failure aborts immediately, otherwise
the retry counter grows and the loop times out once it reaches max_retries.
The inter-poll sleep has no observable effect on the result and is not
modelled. -/
def poll_operation_go (fetch : Nat → Except DataStore.Error Operation) :
    Nat → Nat → PollOutcome × Nat
  | fetched, 0 => (.timedOut, fetched)
  | fetched, budget + 1 =>
    match fetch fetched with
    | .error e => (.fetchFailed e, fetched + 1)
    | .ok op =>
      if op.done then (.success op, fetched + 1)
      else poll_operation_go fetch (fetched + 1) budget

/-- Modelled from the spec: poll(operation_ref, max_retries, interval)
starts with zero fetches performed and the full retry budget; it returns the
terminal outcome together with the number of fetches performed (the spec
default max_retries is 20 and interval 5 seconds; both are caller
parameters here, the interval being behaviourally inert). -/
def poll_operation (fetch : Nat → Except DataStore.Error Operation)
    (max_retries : Nat) : PollOutcome × Nat :=
  poll_operation_go fetch 0 max_retries

lemma poll_operation_go_success (fetch : Nat → Except DataStore.Error Operation)
    (op : Operation) (hdone : op.done = true) :
    ∀ n i budget, n < budget →
    (∀ k, k < n → ∃ o, fetch (i + k) = .ok o ∧ o.done = false) →
    fetch (i + n) = .ok op →
    poll_operation_go fetch i budget = (.success op, i + n + 1) := by
  intro n
  induction n with
  | zero =>
    intro i budget hlt hbefore hfetch
    obtain ⟨b, rfl⟩ := Nat.exists_eq_succ_of_ne_zero (Nat.pos_iff_ne_zero.mp hlt)
    simp only [poll_operation_go]
    rw [show i + 0 = i from rfl] at hfetch
    rw [hfetch]
    simp [hdone]
  | succ n ih =>
    intro i budget hlt hbefore hfetch
    obtain ⟨b, rfl⟩ := Nat.exists_eq_succ_of_ne_zero (Nat.pos_iff_ne_zero.mp (Nat.lt_of_le_of_lt (Nat.zero_le _) hlt))
    obtain ⟨o0, ho0, ho0d⟩ := hbefore 0 (Nat.succ_pos n)
    simp only [poll_operation_go]
    rw [show i + 0 = i from rfl] at ho0
    rw [ho0]
    simp only [ho0d, if_neg Bool.false_ne_true]
    have hshift : ∀ k, k < n → ∃ o, fetch (i + 1 + k) = .ok o ∧ o.done = false := by
      intro k hk
      have := hbefore (k + 1) (Nat.succ_lt_succ hk)
      rwa [show i + (k + 1) = i + 1 + k by omega] at this
    have hfetch' : fetch (i + 1 + n) = .ok op := by
      rwa [show i + (n + 1) = i + 1 + n by omega] at hfetch
    have := ih (i + 1) b (Nat.lt_of_succ_lt_succ hlt) hshift hfetch'
    rw [this]
    simp only [Prod.mk.injEq, true_and]
    omega

lemma poll_operation_go_timeout (fetch : Nat → Except DataStore.Error Operation) :
    ∀ budget i,
    (∀ k, k < budget → ∃ o, fetch (i + k) = .ok o ∧ o.done = false) →
    poll_operation_go fetch i budget = (.timedOut, i + budget) := by
  intro budget
  induction budget with
  | zero => intro i _; simp [poll_operation_go]
  | succ b ih =>
    intro i hall
    obtain ⟨o0, ho0, ho0d⟩ := hall 0 (Nat.succ_pos b)
    simp only [poll_operation_go]
    rw [show i + 0 = i from rfl] at ho0
    rw [ho0]
    simp only [ho0d, if_neg Bool.false_ne_true]
    have hshift : ∀ k, k < b → ∃ o, fetch (i + 1 + k) = .ok o ∧ o.done = false := by
      intro k hk
      have := hall (k + 1) (Nat.succ_lt_succ hk)
      rwa [show i + (k + 1) = i + 1 + k by omega] at this
    rw [ih (i + 1) hshift]
    simp only [Prod.mk.injEq, true_and]
    omega

/-- C1: for a snapshot sequence whose first N-1 fetches report done false
and whose N-th reports done true, with 1 ≤ N ≤ max_retries, poll_operation
resolves successfully after exactly N fetches, returning on the first done
snapshot regardless of the retries still unconsumed. -/
theorem poll_success_after_exactly_N_fetches
    (fetch : Nat → Except DataStore.Error Operation) (opN : Operation)
    (N max_retries : Nat) (hN1 : 1 ≤ N) (hNmax : N ≤ max_retries)
    (hbefore : ∀ k, k < N - 1 → ∃ o, fetch k = .ok o ∧ o.done = false)
    (hNth : fetch (N - 1) = .ok opN) (hdone : opN.done = true) :
    poll_operation fetch max_retries = (.success opN, N) := by
  have h := poll_operation_go_success fetch opN hdone (N - 1) 0 max_retries
    (by omega)
    (by intro k hk; simpa using hbefore k hk)
    (by simpa using hNth)
  unfold poll_operation
  rw [h]
  simp only [Prod.mk.injEq, true_and]
  omega

/-- Snapshot with done false used by the polling witnesses. -/
def opPending : Operation :=
  { name := "op1", metadata := none, done := false, response := none }

/-- Snapshot with done true used by the polling witnesses. -/
def opFinished : Operation :=
  { name := "op1", metadata := none, done := true, response := none }

/-- Fetch sequence of the spec's end-to-end scenario: done false, done
false, done true on successive fetches. -/
def fetchScenario : Nat → Except DataStore.Error Operation :=
  fun k => if k < 2 then .ok opPending else .ok opFinished

theorem poll_success_after_exactly_N_fetches_witness :
    poll_operation fetchScenario 3 = (.success opFinished, 3) :=
  poll_success_after_exactly_N_fetches fetchScenario opFinished 3 3
    (by decide) (by decide)
    (fun k hk => ⟨opPending, by unfold fetchScenario; rw [if_pos hk], rfl⟩)
    (by rfl) rfl

/-- C2: for a snapshot sequence where done never becomes true within
max_retries fetches, poll_operation returns the timedOut constructor of its
ordinary return type (no exception mechanism exists in the model) after
exactly max_retries fetches. -/
theorem poll_timeout_after_exactly_max_retries_fetches
    (fetch : Nat → Except DataStore.Error Operation) (max_retries : Nat)
    (hnever : ∀ k, k < max_retries → ∃ o, fetch k = .ok o ∧ o.done = false) :
    poll_operation fetch max_retries = (.timedOut, max_retries) := by
  have h := poll_operation_go_timeout fetch max_retries 0
    (by intro k hk; simpa using hnever k hk)
  unfold poll_operation
  rw [h]
  simp

/-- Fetch sequence that never completes. -/
def fetchNeverDone : Nat → Except DataStore.Error Operation :=
  fun _ => .ok opPending

theorem poll_timeout_after_exactly_max_retries_fetches_witness :
    poll_operation fetchNeverDone 3 = (.timedOut, 3) :=
  poll_timeout_after_exactly_max_retries_fetches fetchNeverDone 3
    (fun _ _ => ⟨opPending, rfl, rfl⟩)

lemma lookupField_cons_self (k : String) (v : Json) (l : List (String × Json)) :
    lookupField ((k, v) :: l) k = some v := by
  simp [lookupField]

lemma lookupField_cons_ne (k k' : String) (v : Json) (l : List (String × Json))
    (h : k' ≠ k) : lookupField ((k', v) :: l) k = lookupField l k := by
  simp [lookupField, h]

lemma removeField_eq_self (l : List (String × Json)) (k : String)
    (h : k ∉ l.map Prod.fst) : removeField l k = l := by
  unfold removeField
  rw [List.filter_eq_self]
  intro p hp
  simp only [decide_eq_true_eq]
  intro hpk
  exact h (List.mem_map.mpr ⟨p, hp, hpk⟩)

lemma decode_string_pairs_encode (r : List (String × String)) :
    decodeStringPairs (r.map (fun p => (p.1, Json.str p.2))) = some r := by
  induction r with
  | nil => rfl
  | cons p rest ih => simp [decodeStringPairs, ih]

lemma decode_encode_string_map (r : List (String × String)) :
    decodeStringMap (encodeStringMap r) = some r := by
  simp [decodeStringMap, encodeStringMap, decode_string_pairs_encode]

lemma encodeMetadata_not_null (m : Metadata) : (encodeMetadata m).isNull = false := rfl

lemma encodeStringMap_not_null (r : List (String × String)) :
    (encodeStringMap r).isNull = false := rfl

lemma decode_encode_metadata (m : Metadata) (hwf : m.wf) :
    decodeMetadata (encodeMetadata m) = some m := by
  obtain ⟨_, hkey⟩ := hwf
  simp only [encodeMetadata, decodeMetadata, lookupField_cons_self]
  rw [show removeField (("@type", Json.str m.at_type) :: m.additional) "@type"
      = removeField m.additional "@type" by simp [removeField]]
  rw [removeField_eq_self m.additional "@type" hkey]

/-- C9: serde serialization of a schema-conformant Operation followed by
deserialization restores the value exactly; conformance asks only that the
open-ended maps are genuine HashMap images and that the flattened metadata
map does not shadow the reserved type-marker key, which the remote schema
itself owns. -/
theorem operation_decode_encode_round_trip (op : Operation) (hwf : op.wf) :
    decodeOperation (encodeOperation op) = some op := by
  obtain ⟨hmd, _⟩ := hwf
  obtain ⟨nm, md, d, rs⟩ := op
  cases md with
  | none =>
    cases rs with
    | none =>
      simp [encodeOperation, decodeOperation, decodeOptionalField, lookupField]
    | some r =>
      simp [encodeOperation, decodeOperation, decodeOptionalField, lookupField,
        decode_encode_string_map, encodeStringMap_not_null]
  | some m =>
    have hm : m.wf := hmd m (by simp)
    cases rs with
    | none =>
      simp [encodeOperation, decodeOperation, decodeOptionalField, lookupField,
        decode_encode_metadata m hm, encodeMetadata_not_null]
    | some r =>
      simp [encodeOperation, decodeOperation, decodeOptionalField, lookupField,
        decode_encode_metadata m hm, decode_encode_string_map,
        encodeMetadata_not_null, encodeStringMap_not_null]

/-- Concrete schema-conformant Operation exercising every field. -/
def opRoundTrip : Operation :=
  { name := "projects/p1/operations/op1"
    metadata := some { at_type := "type.googleapis.com/CreateDataStoreMetadata"
                       additional := [("createTime", .str "2024-01-01"), ("steps", .num 3)] }
    done := true
    response := some [("state", "ACTIVE"), ("id", "ds1")] }

theorem operation_decode_encode_round_trip_witness :
    opRoundTrip.wf ∧ decodeOperation (encodeOperation opRoundTrip) = some opRoundTrip :=
  ⟨by decide, operation_decode_encode_round_trip opRoundTrip (by decide)⟩

/-- Token provider that always succeeds, for concrete environments. -/
def okProvider : TokenProvider := { token := fun _ => .ok "token123" }

/-- Token provider whose credential source denies every request. -/
def deniedProvider : TokenProvider :=
  { token := fun _ => .error { msg := "scopes denied by credential source" } }

/-- URL parser accepting every string as a bare base URL, for environments
whose scenario does not hinge on parsing. -/
def idParser : String → Except String Url :=
  fun s => .ok { base := s, query := [] }

/-- URL parser rejecting every string with the reqwest message for a
malformed base. -/
def failParser : String → Except String Url :=
  fun _ => .error "relative URL without a base"

/-- Transport answering 200 with an empty object, to show a conclusion does
not depend on what the network would have said. -/
def okTransport : HttpRequest → Except ReqwestError HttpResponse :=
  fun _ => .ok { status := 200, url := "https://example.test/", body := .obj [] }

/-- Environment with working credentials and a parser that rejects the
URL. -/
def envBadUrl : Env :=
  { providerInit := .ok okProvider, parse := failParser, send := okTransport }

lemma resolve_url_error (parse : String → Except String Url) (url : String)
    (params : Option (List (String × String))) (e : String)
    (hparse : parse url = .error e) :
    resolve_url parse url params = .error e := by
  cases params with
  | none => simpa [resolve_url]
  | some ps => simp [resolve_url, parse_with_params, hparse]

/-- C3 counterexample: with working credentials, a POST through api_post on
a malformed base URL fails with ClientError wrapping the reqwest builder
error, not with UrlParseError, because api_post hands the raw string to the
reqwest builder instead of parsing it itself. -/
theorem api_post_malformed_url_is_ClientError_not_UrlParseError :
    api_post envBadUrl [BASE_SCOPE] "bad url" (.obj []) =
      .err (.ClientError (.builder "relative URL without a base")) := rfl

/-- C3 amended: with token acquisition succeeding, a GET or DELETE on a
malformed base URL fails with UrlParseError carrying the offending reason
before the transport is consulted (the conclusion holds for every Env
transport), while a POST on the same URL also fails before any network call
but with ClientError wrapping the builder error instead of UrlParseError. -/
theorem malformed_url_fails_before_any_network_call
    (env : Env) (scopes : List Scope) (url : String)
    (params : Option (List (String × String))) (body : Json)
    (e : String) (headers : List (String × String))
    (hauth : auth_headers env scopes = .ok headers)
    (hparse : env.parse url = .error e) :
    api_get_with_params env scopes url params = .err (.UrlParseError e) ∧
    api_delete env scopes url params = .err (.UrlParseError e) ∧
    api_post env scopes url body = .err (.ClientError (.builder e)) := by
  have hres := resolve_url_error env.parse url params e hparse
  refine ⟨?_, ?_, ?_⟩ <;>
    simp [api_get_with_params, api_delete, api_post, hauth, hres, hparse]

theorem malformed_url_fails_before_any_network_call_witness :
    api_get_with_params envBadUrl [BASE_SCOPE] "bad url" none =
      .err (.UrlParseError "relative URL without a base") :=
  (malformed_url_fails_before_any_network_call envBadUrl [BASE_SCOPE] "bad url"
    none (.obj []) "relative URL without a base"
    [("authorization", "Bearer " ++ "token123")] rfl rfl).1

/-- Environment whose credential source is misconfigured at provider
initialisation time. -/
def envInitFail : Env :=
  { providerInit := .error { msg := "GOOGLE_APPLICATION_CREDENTIALS not set" },
    parse := idParser, send := okTransport }

/-- C4 counterexample: when provider initialisation itself fails (the
credential source misconfigured before any token is requested), a client
call does not surface an AuthError result: the expect in token_provider
panics with its fixed message instead. -/
theorem provider_init_failure_panics_instead_of_AuthError :
    api_post envInitFail [BASE_SCOPE] "https://example.test/" (.obj []) =
      .panicked "unable to initialize token provider" := rfl

/-- C4 amended: once the provider is initialised, a token acquisition
failure for the requested scopes surfaces as ProviderError (the AuthError)
to the caller of every client call, for every scope set, with no internal
retry and no network call: the conclusion is the same for every Env parser
and transport. Provider initialisation failure, by contrast, panics (see
the counterexample). -/
theorem token_failure_surfaces_ProviderError
    (env : Env) (p : TokenProvider) (scopes : List Scope)
    (e : GcpAuthError) (url : String)
    (params : Option (List (String × String))) (body : Json)
    (hinit : env.providerInit = .ok p)
    (htok : p.token scopes = .error e) :
    api_post env scopes url body = .err (.ProviderError e) ∧
    api_get_with_params env scopes url params = .err (.ProviderError e) ∧
    api_delete env scopes url params = .err (.ProviderError e) := by
  have hauth : auth_headers env scopes = .err (.ProviderError e) := by
    simp [auth_headers, token_provider, hinit, htok]
  refine ⟨?_, ?_, ?_⟩ <;>
    simp [api_post, api_get_with_params, api_delete, hauth]

/-- Environment whose credential source denies the requested scopes at
token time. -/
def envTokenDenied : Env :=
  { providerInit := .ok deniedProvider, parse := idParser, send := okTransport }

theorem token_failure_surfaces_ProviderError_witness :
    api_post envTokenDenied [BASE_SCOPE] "https://example.test/" (.obj []) =
      .err (.ProviderError { msg := "scopes denied by credential source" }) :=
  (token_failure_surfaces_ProviderError envTokenDenied deniedProvider
    [BASE_SCOPE] { msg := "scopes denied by credential source" }
    "https://example.test/" none (.obj []) rfl rfl).1

/-- C5: a response with an HTTP error status (4xx or 5xx here via 400 ≤
status) is returned raw and successfully by api_post, api_get_with_params
and api_delete alike: the client layer performs no status check, leaving
status interpretation and body decoding to the caller. -/
theorem error_status_response_returned_raw
    (env : Env) (scopes : List Scope) (url : String)
    (params : Option (List (String × String))) (body : Json)
    (headers : List (String × String)) (u u2 : Url) (resp : HttpResponse)
    (hauth : auth_headers env scopes = .ok headers)
    (hpost : env.parse url = .ok u)
    (hres : resolve_url env.parse url params = .ok u2)
    (hsend : ∀ req, env.send req = .ok resp)
    (hstatus : 400 ≤ resp.status) :
    api_post env scopes url body = .ok resp ∧
    api_get_with_params env scopes url params = .ok resp ∧
    api_delete env scopes url params = .ok resp := by
  refine ⟨?_, ?_, ?_⟩ <;>
    simp [api_post, api_get_with_params, api_delete, hauth, hpost, hres, hsend]

/-- Response with status 404 and a JSON error body. -/
def respNotFound : HttpResponse :=
  { status := 404, url := "https://example.test/"
    body := .obj [("error", .str "resource not found")] }

/-- Environment whose transport always answers the 404 response. -/
def envNotFound : Env :=
  { providerInit := .ok okProvider, parse := idParser,
    send := fun _ => .ok respNotFound }

theorem error_status_response_returned_raw_witness :
    api_post envNotFound [BASE_SCOPE] "https://example.test/" (.obj []) =
      .ok respNotFound :=
  (error_status_response_returned_raw envNotFound [BASE_SCOPE]
    "https://example.test/" none (.obj [])
    [("authorization", "Bearer " ++ "token123")]
    { base := "https://example.test/", query := [] }
    { base := "https://example.test/", query := [] }
    respNotFound rfl rfl rfl (fun _ => rfl) (by decide)).1

/-- Delete request aimed at a data store that does not exist. -/
def delMissing : DeleteDataStoreRequest :=
  { collections := "default_collection", project_id := "p1", data_store_id := "missing-ds" }

/-- The 404 environment for the delete scenario, parameterised by the error
body the remote service returns. -/
def env404 (errorBody : Json) : Env :=
  { providerInit := .ok okProvider, parse := idParser,
    send := fun _ => .ok { status := 404, url := delete_data_store_url delMissing,
                           body := errorBody } }

/-- C6 counterexample: two runs of delete_data_store that differ only in the
remote 404 error body produce byte-identical HttpStatus errors, and that
error is the stringified reqwest status error carrying url and code only:
the remote error body is dropped by error_for_status, not preserved
verbatim. -/
theorem delete_data_store_404_body_not_preserved :
    delete_data_store (env404 (.obj [("error", .str "data store missing-ds does not exist")])) delMissing =
      delete_data_store (env404 (.obj [("error", .str "a completely different remote error body")])) delMissing ∧
    delete_data_store (env404 (.obj [("error", .str "data store missing-ds does not exist")])) delMissing =
      .err (.HttpStatus (reqwestErrorString
        (.status (delete_data_store_url delMissing) 404))) :=
  ⟨rfl, rfl⟩

/-- C6 amended: a typed endpoint call receiving a non-2xx status fails with
HttpStatus carrying the stringified status error, which quotes the status
code and the url; the response body is consumed by error_for_status and does
not reach the error. In particular delete_data_store on a 404 returns
HttpStatus built from the code 404 and the response url alone, whatever the
remote body said. -/
theorem delete_data_store_404_returns_HttpStatus
    (env : Env) (req : DeleteDataStoreRequest)
    (headers : List (String × String)) (u : Url) (resp : HttpResponse)
    (hauth : auth_headers env [BASE_SCOPE] = .ok headers)
    (hparse : env.parse (delete_data_store_url req) = .ok u)
    (hsend : ∀ r, env.send r = .ok resp)
    (hstatus : resp.status = 404) :
    delete_data_store env req =
      .err (.HttpStatus (reqwestErrorString (.status resp.url 404))) := by
  simp [delete_data_store, dataStorePipeline, api_delete, resolve_url,
    hauth, hparse, hsend, error_for_status, hstatus]

theorem delete_data_store_404_returns_HttpStatus_witness :
    delete_data_store (env404 (.obj [("error", .str "not found")])) delMissing =
      .err (.HttpStatus (reqwestErrorString
        (.status (delete_data_store_url delMissing) 404))) :=
  delete_data_store_404_returns_HttpStatus
    (env404 (.obj [("error", .str "not found")])) delMissing
    [("authorization", "Bearer " ++ "token123")]
    { base := delete_data_store_url delMissing, query := [] }
    { status := 404, url := delete_data_store_url delMissing
      body := .obj [("error", .str "not found")] }
    rfl rfl (fun _ => rfl) rfl

/-- Continuation every Operation-returning endpoint applies to the exchange
of one outbound request: send it, require success status stringified into
HttpStatus, then decode the body as an Operation. -/
def operation_call_result (env : Env) (req : HttpRequest) :
    Outcome DataStore.Error Operation :=
  match env.send req with
  | .error e => .err (.ClientError (.ClientError e))
  | .ok resp =>
    match error_for_status resp with
    | .error e => .err (.HttpStatus (reqwestErrorString e))
    | .ok resp2 =>
      match decodeOperation resp2.body with
      | none => .err (.ResponseJsonParsing (.decode "expected Operation"))
      | some op => .ok op

/-- C7: create_data_store issues exactly one POST whose URL base is the
dataStores path under the caller's project and collection with the location
fixed to the literal global, and whose query carries dataStoreId and
createAdvancedSiteSearch, the latter defaulting to false when the request
flag is absent; the whole call is that exchange followed by the standard
status check and Operation decode. The parser hypotheses state that the
well-formed base parses to itself and that re-parsing the serialized built
URL restores it, both reqwest invariants. -/
theorem create_data_store_posts_expected_url
    (env : Env) (r : CreateDataStoreRequest) (headers : List (String × String))
    (hauth : auth_headers env [BASE_SCOPE] = .ok headers)
    (hbase : env.parse (create_data_store_base_url r) =
      .ok { base := create_data_store_base_url r, query := [] })
    (hre : env.parse (Url.as_str { base := create_data_store_base_url r,
                                   query := create_data_store_params r }) =
      .ok { base := create_data_store_base_url r, query := create_data_store_params r }) :
    create_data_store env r =
      operation_call_result env
        { method := .post,
          url := { base := create_data_store_base_url r,
                   query := create_data_store_params r },
          headers := headers,
          body := some r.data_store } ∧
    create_data_store_base_url r =
      "https://discoveryengine.googleapis.com/v1beta/projects/" ++ r.project_id
        ++ "/locations/" ++ "global" ++ "/collections/" ++ r.collections
        ++ "/dataStores" ∧
    create_data_store_params r =
      [("dataStoreId", r.data_store_id),
       ("createAdvancedSiteSearch",
        boolString (r.create_advance_site_search.getD false))] := by
  refine ⟨?_, rfl, rfl⟩
  have hpw : parse_with_params env.parse (create_data_store_base_url r)
      (create_data_store_params r) =
      .ok { base := create_data_store_base_url r, query := create_data_store_params r } := by
    simp [parse_with_params, hbase]
  unfold create_data_store
  rw [hpw]
  unfold api_post
  rw [hauth]
  dsimp only
  rw [hre]
  dsimp only
  unfold operation_call_result dataStorePipeline
  cases env.send { method := .post,
                   url := { base := create_data_store_base_url r,
                            query := create_data_store_params r },
                   headers := headers, body := some r.data_store } with
  | error e => rfl
  | ok resp =>
    dsimp only
    cases error_for_status resp with
    | error e2 => rfl
    | ok resp2 => dsimp only

/-- Concrete create request matching the end-to-end scenario of the spec. -/
def createReq : CreateDataStoreRequest :=
  { data_store := .obj [("displayName", .str "ds1")]
    project_id := "p1"
    collections := "default_collection"
    data_store_id := "ds1"
    create_advance_site_search := none }

/-- Serialized form of the URL the create scenario builds. -/
def createUrlString : String :=
  Url.as_str { base := create_data_store_base_url createReq
               query := create_data_store_params createReq }

/-- Environment for the create scenario: working credentials, a parser that
recovers the built URL from its serialized form and accepts any other
string bare, and a transport answering the pending operation. -/
def envCreate : Env :=
  { providerInit := .ok okProvider
    parse := fun s =>
      if s = createUrlString
      then .ok { base := create_data_store_base_url createReq
                 query := create_data_store_params createReq }
      else .ok { base := s, query := [] }
    send := fun _ => .ok { status := 200, url := "https://example.test/"
                           body := encodeOperation opPending } }

theorem create_data_store_posts_expected_url_witness :
    create_data_store envCreate createReq =
      operation_call_result envCreate
        { method := .post,
          url := { base := create_data_store_base_url createReq,
                   query := create_data_store_params createReq },
          headers := [("authorization", "Bearer " ++ "token123")],
          body := some createReq.data_store } ∧
    create_data_store_base_url createReq =
      "https://discoveryengine.googleapis.com/v1beta/projects/" ++ "p1"
        ++ "/locations/" ++ "global" ++ "/collections/" ++ "default_collection"
        ++ "/dataStores" ∧
    create_data_store_params createReq =
      [("dataStoreId", "ds1"), ("createAdvancedSiteSearch", boolString false)] :=
  create_data_store_posts_expected_url envCreate createReq
    [("authorization", "Bearer " ++ "token123")] rfl rfl rfl

/-- Concrete search request whose caller-supplied parameters are the project
id p1 and a search body. -/
def searchReqP1 : DiscoveryEngine.SearchRequest :=
  { project_id := "p1", discovery_engine_search_request := .obj [] }

/-- C8 counterexample: the search URL built for the request with project id
p1 embeds the engine id moni-demo-final_1722720080773 and the collection
default_collection, neither of which is the location literal global nor any
caller-supplied parameter of the request: hidden defaults beyond the
location literal exist. -/
theorem search_url_embeds_hidden_engine_default :
    DiscoveryEngine.search_url searchReqP1 =
      "https://discoveryengine.googleapis.com/v1beta/projects/p1/locations/global/collections/default_collection/engines/moni-demo-final_1722720080773/servingConfigs/default_serving_config:search"
    ∧ DiscoveryEngine.app_id ≠ "global"
    ∧ DiscoveryEngine.app_id ≠ searchReqP1.project_id := by
  refine ⟨by rfl, by decide, by decide⟩

/-- C8 amended: the search and answer URLs are deterministic functions of
the caller's project_id alone together with three fixed literals: the
location global, the collection default_collection, and the engine id
app_id, the last two being hidden defaults beyond the location literal.
Requests agreeing on project_id always produce identical URLs, whatever
their body payloads. -/
theorem search_answer_urls_determined_by_project_and_literals
    (r1 r2 : DiscoveryEngine.SearchRequest)
    (a1 a2 : DiscoveryEngine.AnswerRequest)
    (hr : r1.project_id = r2.project_id)
    (ha : a1.project_id = a2.project_id) :
    DiscoveryEngine.search_url r1 = DiscoveryEngine.search_url r2 ∧
    DiscoveryEngine.answer_url a1 = DiscoveryEngine.answer_url a2 ∧
    DiscoveryEngine.search_url r1 =
      "https://discoveryengine.googleapis.com/v1beta/" ++ "projects/"
        ++ r1.project_id ++ "/locations/" ++ "global"
        ++ "/collections/default_collection/engines/"
        ++ DiscoveryEngine.app_id
        ++ "/servingConfigs/default_serving_config" ++ ":search" ∧
    DiscoveryEngine.answer_url a1 =
      "https://discoveryengine.googleapis.com/v1beta/" ++ "projects/"
        ++ a1.project_id ++ "/locations/" ++ "global"
        ++ "/collections/default_collection/engines/"
        ++ DiscoveryEngine.app_id
        ++ "/servingConfigs/default_serving_config" ++ ":answer" := by
  refine ⟨?_, ?_, ?_, ?_⟩ <;>
    simp [DiscoveryEngine.search_url, DiscoveryEngine.answer_url,
      DiscoveryEngine.server_config, hr, ha, String.append_assoc] <;>
    (rw [← String.append_assoc]; congr 1)

/-- Second concrete search request: same project id as searchReqP1, a
different body. -/
def searchReqP1' : DiscoveryEngine.SearchRequest :=
  { project_id := "p1", discovery_engine_search_request := .obj [("query", .str "q")] }

/-- Concrete answer requests sharing a project id. -/
def answerReqP1 : DiscoveryEngine.AnswerRequest :=
  { project_id := "p1", discovery_engine_answer_request := .obj [] }

def answerReqP1' : DiscoveryEngine.AnswerRequest :=
  { project_id := "p1", discovery_engine_answer_request := .obj [("query", .str "q")] }

theorem search_answer_urls_determined_by_project_and_literals_witness :
    DiscoveryEngine.search_url searchReqP1 = DiscoveryEngine.search_url searchReqP1' ∧
    DiscoveryEngine.answer_url answerReqP1 = DiscoveryEngine.answer_url answerReqP1' :=
  ⟨(search_answer_urls_determined_by_project_and_literals searchReqP1 searchReqP1'
      answerReqP1 answerReqP1' rfl rfl).1,
   (search_answer_urls_determined_by_project_and_literals searchReqP1 searchReqP1'
      answerReqP1 answerReqP1' rfl rfl).2.1⟩

/-- C10: two SearchChunksRequest values agreeing on project_id, collections
and data_store_id make search_chunks issue the identical outbound HTTP
exchange in every environment, and that exchange is a GET on the formatted
URL with an empty query and no body: the query, page_size, page_token,
offset, filter, order_by, serving_config and content_search_spec fields
never reach the request. -/
theorem search_chunks_request_ignores_search_fields
    (r1 r2 : SearchChunksRequest)
    (hp : r1.project_id = r2.project_id)
    (hc : r1.collections = r2.collections)
    (hd : r1.data_store_id = r2.data_store_id) :
    (∀ env : Env, search_chunks_send env r1 = search_chunks_send env r2) ∧
    (∀ env : Env, ∀ headers : List (String × String),
      auth_headers env [BASE_SCOPE] = .ok headers →
      env.parse (search_chunks_url r1) = .ok { base := search_chunks_url r1, query := [] } →
      search_chunks_send env r1 =
        dataStorePipeline
          (match env.send { method := .get,
                            url := { base := search_chunks_url r1, query := [] },
                            headers := headers, body := none } with
           | .error e => .err (.ClientError e)
           | .ok resp => .ok resp)) := by
  have hurl : search_chunks_url r1 = search_chunks_url r2 := by
    simp [search_chunks_url, hp, hc, hd]
  refine ⟨fun env => ?_, fun env headers hauth hparse => ?_⟩
  · simp [search_chunks_send, hurl]
  · unfold search_chunks_send api_get_with_params
    rw [hauth]
    dsimp only
    rw [show resolve_url env.parse (search_chunks_url r1) none =
        env.parse (search_chunks_url r1) from rfl, hparse]

/-- Concrete chunk-search requests differing in every search field but
agreeing on the three path parameters. -/
def chunksReqA : SearchChunksRequest :=
  { project_id := "p1", collections := "default_collection"
    data_store_id := "ds1", serving_config := "cfgA", query := "alpha"
    page_size := some 10, page_token := some "tokA", offset := some 0
    filter := some "category: a", order_by := some "date"
    content_search_spec := .obj [("chunkSpec", .num 1)] }

def chunksReqB : SearchChunksRequest :=
  { project_id := "p1", collections := "default_collection"
    data_store_id := "ds1", serving_config := "cfgB", query := "omega"
    page_size := none, page_token := none, offset := none
    filter := none, order_by := none
    content_search_spec := .obj [] }

theorem search_chunks_request_ignores_search_fields_witness :
    search_chunks_send envNotFound chunksReqA = search_chunks_send envNotFound chunksReqB :=
  (search_chunks_request_ignores_search_fields chunksReqA chunksReqB
    rfl rfl rfl).1 envNotFound

end Moni
